import Mathlib

/-!
Shallow embedding of the ADS-B traffic simulator
(`python-simulator/adsb_simulator.py`) and proofs about it.

Conventions of the embedding:
* Python floats are modelled as rationals (`ℚ`).
* The global `random` generator is modelled as a stream `r : ℕ → ℚ` of
  unit-interval draws together with an explicit cursor `k : ℕ`; the
  predicate `UnitRng r` states every draw lies in `[0, 1)`.
* The external geodesy library (`geopy`) and the trigonometric bearing
  helper are abstracted as a record `Geo` of functions; every theorem is
  proved for an arbitrary `Geo`, since no verified claim depends on the
  numeric values of distances, destinations or bearings.
* Fallible Python code (attribute errors, `KeyError`, exceptions) is
  modelled with `Except String`.
-/

namespace Adsb

/-! ## Random-stream model -/

/-- Validity of a draw stream: every draw of the modelled global `random`
generator lies in the unit interval `[0, 1)`. -/
def UnitRng (r : ℕ → ℚ) : Prop := ∀ n, 0 ≤ r n ∧ r n < 1

/-- One raw draw, `random.random()`: value and advanced cursor. -/
def randUnit (r : ℕ → ℚ) (k : ℕ) : ℚ × ℕ := (r k, k + 1)

/-- Model of `random.uniform(a, b)`. -/
def randUniform (r : ℕ → ℚ) (a b : ℚ) (k : ℕ) : ℚ × ℕ :=
  (a + r k * (b - a), k + 1)

/-- Model of `random.randint(a, b)`: an integer in `[a, b]`, both ends
inclusive. -/
def randIntIn (r : ℕ → ℚ) (a b : ℤ) (k : ℕ) : ℤ × ℕ :=
  (a + ⌊r k * ((b : ℚ) - (a : ℚ) + 1)⌋, k + 1)

/-- Python float modulo `x % m`: for a positive modulus the result lies in
`[0, m)`, matching CPython semantics (result takes the sign of the
modulus). -/
def fmod (x m : ℚ) : ℚ := x - m * ⌊x / m⌋

/-! ## Geodesy abstraction -/

/-- A latitude/longitude pair in decimal degrees (`geopy.Point`). -/
structure Pt where
  lat : ℚ
  lon : ℚ
deriving DecidableEq

/-- Abstraction of the geodesy primitives used by the simulator:
`geodesic(p, q).kilometers`, `geodesic(p, q).nautical`,
`Aircraft._calculate_bearing`, and
`geodesic(kilometers=d).destination(origin, bearing)`. -/
structure Geo where
  distKm : Pt → Pt → ℚ
  distNm : Pt → Pt → ℚ
  bearing : Pt → Pt → ℚ
  dest : Pt → ℚ → ℚ → Pt

/-- Degenerate geodesy used to instantiate theorems on concrete inputs:
all distances are zero and destination is the origin. -/
def trivGeo : Geo :=
  { distKm := fun _ _ => 0
    distNm := fun _ _ => 0
    bearing := fun _ _ => 0
    dest := fun p _ _ => p }

/-- Constant draw stream used for concrete instantiations. -/
def halfRng : ℕ → ℚ := fun _ => 1/2

/-! ## Aircraft state -/

/-- Model of the `Waypoint` dataclass. -/
structure Waypoint where
  latitude : ℚ
  longitude : ℚ
  name : String
deriving DecidableEq

/-- Mutable state of one `Aircraft` object (all attributes assigned by
`__init__` and mutated by the update methods). -/
structure Aircraft where
  icao_address : String
  aircraft_type : String
  callsign : String
  latitude : ℚ
  longitude : ℚ
  altitude : ℚ
  ground_speed : ℚ
  max_speed : ℚ
  min_speed : ℚ
  climb_rate : ℚ
  heading : ℚ
  target_altitude : ℚ
  target_speed : ℚ
  target_heading : ℚ
  waypoints : List Waypoint
  current_waypoint_index : ℕ
  emergency_state : Bool
  conflict_state : Bool
  squawk : String
deriving DecidableEq

/-- Placeholder aircraft used as the default of index-based list access. -/
def blankAircraft : Aircraft :=
  { icao_address := "", aircraft_type := "jet", callsign := ""
    latitude := 0, longitude := 0, altitude := 0, ground_speed := 0
    max_speed := 0, min_speed := 0, climb_rate := 0, heading := 0
    target_altitude := 0, target_speed := 0, target_heading := 0
    waypoints := [], current_waypoint_index := 0
    emergency_state := false, conflict_state := false, squawk := "1200" }

instance : Inhabited Aircraft := ⟨blankAircraft⟩

/-! ## Flight-plan generation -/

/-- Loop body of `Aircraft._generate_flight_plan`: chain `n` waypoints,
each `uniform(185, 555)` km from the previous at a `uniform(0, 360)`
bearing, appending to the accumulator.  `i` is the Python loop index used
only for the waypoint name. -/
def genWaypoints (geo : Geo) (r : ℕ → ℚ) :
    ℕ → ℚ → ℚ → ℕ → List Waypoint → ℕ → List Waypoint × ℕ
  | 0, _, _, _, acc, k => (acc, k)
  | n + 1, lat, lon, i, acc, k =>
    let pd := randUniform r 185 555 k
    let pb := randUniform r 0 360 pd.2
    let dst := geo.dest ⟨lat, lon⟩ pd.1 pb.1
    genWaypoints geo r n dst.lat dst.lon (i + 1)
      (acc ++ [⟨dst.lat, dst.lon, "WPT" ++ toString (i + 1)⟩]) pb.2

/-- Model of `Aircraft._generate_flight_plan` in the states where
`self.waypoints` exists: draw `randint(3, 5)` and append that many chained
waypoints starting from the current position. -/
def genFlightPlan (geo : Geo) (r : ℕ → ℚ) (lat lon : ℚ)
    (wps : List Waypoint) (k : ℕ) : List Waypoint × ℕ :=
  let pn := randIntIn r 3 5 k
  genWaypoints geo r pn.1.toNat lat lon 0 wps pn.2

/-- Model of the `_generate_flight_plan` call made from inside
`__init__` (via `_initialize_flight_parameters`), where the attribute
`self.waypoints` has not been assigned yet: the first
`self.waypoints.append(...)` raises `AttributeError`.  Only if the drawn
waypoint count were zero would the loop body never run and the call
return normally. -/
def genFlightPlanNoAttr (r : ℕ → ℚ) (k : ℕ) : Except String ℕ :=
  let pn := randIntIn r 3 5 k
  if pn.1.toNat = 0 then Except.ok pn.2
  else Except.error "AttributeError: waypoints"

/-- Model of `Aircraft.__init__(icao_address, aircraft_type)`: callsign
generation, `_initialize_flight_parameters` (which ends by calling
`_generate_flight_plan` while `self.waypoints` is still unassigned), then
the remaining attribute assignments of `__init__` (note line order in the
source: `self.waypoints = []` and `self.current_waypoint_index = 0` are
assigned only after `_initialize_flight_parameters()` returns). -/
def aircraftInit (geo : Geo) (r : ℕ → ℚ) (icao cat : String) (k : ℕ) :
    Except String (Aircraft × ℕ) :=
  let airlines : List String :=
    ["UAL", "DAL", "AAL", "SWA", "JBU", "DL", "AA", "UA", "WN", "B6"]
  let pu := randUnit r k
  let airline := airlines.getD (Int.toNat ⌊pu.1 * 10⌋) "UAL"
  let pfn := randIntIn r 1000 9999 pu.2
  let callsign := airline ++ toString pfn.1
  let plat := randUniform r (-60) 60 pfn.2
  let plon := randUniform r (-180) 180 plat.2
  let palt := if cat = "jet" then randIntIn r 25000 42000 plon.2
              else randIntIn r 8000 18000 plon.2
  let pspd := if cat = "jet" then randIntIn r 400 550 palt.2
              else randIntIn r 150 220 palt.2
  let maxS : ℚ := if cat = "jet" then 600 else 250
  let minS : ℚ := if cat = "jet" then 200 else 80
  let pclimb := if cat = "jet" then randUniform r 1500 3000 pspd.2
                else randUniform r 500 1200 pspd.2
  let phdg := randIntIn r 0 359 pclimb.2
  match genFlightPlanNoAttr r phdg.2 with
  | Except.error e => Except.error e
  | Except.ok k1 =>
    Except.ok
      ({ icao_address := icao, aircraft_type := cat, callsign := callsign
         latitude := plat.1, longitude := plon.1
         altitude := (palt.1 : ℚ), ground_speed := (pspd.1 : ℚ)
         max_speed := maxS, min_speed := minS, climb_rate := pclimb.1
         heading := (phdg.1 : ℚ), target_altitude := (palt.1 : ℚ)
         target_speed := (pspd.1 : ℚ), target_heading := (phdg.1 : ℚ)
         waypoints := [], current_waypoint_index := 0
         emergency_state := false, conflict_state := false
         squawk := "1200" }, k1)

/-! ## Kinematic update -/

/-- Model of `Aircraft._normalize_heading_difference`: shift by multiples
of 360 into the closed band `[-180, 180]`. -/
def normHD (d : ℚ) : ℚ :=
  if h1 : d > 180 then normHD (d - 360)
  else if h2 : d < -180 then normHD (d + 360)
  else d
termination_by (⌊(|d| + 180) / 360⌋).toNat
decreasing_by
  · have habs : |d| = d := abs_of_pos (by linarith)
    have ht : (1 : ℤ) ≤ ⌊(|d| + 180) / 360⌋ := by
      rw [Int.le_floor, habs]
      push_cast
      rw [le_div_iff₀ (by norm_num : (0:ℚ) < 360)]
      linarith
    rcases le_or_lt 360 d with hge | hlt
    · have habs2 : |d - 360| = d - 360 := abs_of_nonneg (by linarith)
      have : ⌊(|d - 360| + 180) / 360⌋ = ⌊(|d| + 180) / 360⌋ - 1 := by
        rw [habs, habs2]
        have : (d - 360 + 180) / 360 = (d + 180) / 360 - 1 := by ring
        rw [this, Int.floor_sub_one]
      omega
    · have habs2 : |d - 360| = -(d - 360) := abs_of_neg (by linarith)
      have hz : ⌊(|d - 360| + 180) / 360⌋ = 0 := by
        rw [habs2]
        rw [Int.floor_eq_zero_iff]
        constructor
        · rw [le_div_iff₀ (by norm_num : (0:ℚ) < 360)]
          linarith
        · rw [div_lt_iff₀ (by norm_num : (0:ℚ) < 360)]
          linarith
      omega
  · have habs : |d| = -d := abs_of_neg (by linarith)
    have ht : (1 : ℤ) ≤ ⌊(|d| + 180) / 360⌋ := by
      rw [Int.le_floor, habs]
      push_cast
      rw [le_div_iff₀ (by norm_num : (0:ℚ) < 360)]
      linarith
    rcases le_or_lt d (-360) with hle | hgt
    · have habs2 : |d + 360| = -(d + 360) := abs_of_nonpos (by linarith)
      have : ⌊(|d + 360| + 180) / 360⌋ = ⌊(|d| + 180) / 360⌋ - 1 := by
        rw [habs, habs2]
        have : (-(d + 360) + 180) / 360 = (-d + 180) / 360 - 1 := by ring
        rw [this, Int.floor_sub_one]
      omega
    · have habs2 : |d + 360| = d + 360 := abs_of_pos (by linarith)
      have hz : ⌊(|d + 360| + 180) / 360⌋ = 0 := by
        rw [habs2]
        rw [Int.floor_eq_zero_iff]
        constructor
        · rw [le_div_iff₀ (by norm_num : (0:ℚ) < 360)]
          linarith
        · rw [div_lt_iff₀ (by norm_num : (0:ℚ) < 360)]
          linarith
      omega

/-- Model of `Aircraft._update_speed`: slew toward `target_speed` at at
most 2 kt/s, then clamp to `[min_speed, max_speed]`. -/
def updateSpeed (dt : ℚ) (a : Aircraft) : Aircraft :=
  let speedDiff := a.target_speed - a.ground_speed
  let gs :=
    if |speedDiff| > 2 * dt then
      a.ground_speed + (if speedDiff > 0 then 1 else -1) * 2 * dt
    else a.target_speed
  { a with ground_speed := max a.min_speed (min a.max_speed gs) }

/-- Model of `Aircraft._update_altitude`: slew toward `target_altitude`
at at most `climb_rate / 60` ft/s, then clamp to `[1000, 60000]`. -/
def updateAltitude (dt : ℚ) (a : Aircraft) : Aircraft :=
  let altDiff := a.target_altitude - a.altitude
  let rate := a.climb_rate / 60
  let alt :=
    if |altDiff| > rate * dt then
      a.altitude + (if altDiff > 0 then 1 else -1) * rate * dt
    else a.target_altitude
  { a with altitude := max 1000 (min 60000 alt) }

/-- Model of `Aircraft._add_realistic_variations`: heading noise then
modulo 360, speed noise then clamp, altitude noise then clamp. -/
def addVariations (r : ℕ → ℚ) (a : Aircraft) (k : ℕ) : Aircraft × ℕ :=
  let ph := randUniform r (-(1/2)) (1/2) k
  let heading := fmod (a.heading + ph.1) 360
  let ps := randUniform r (-2) 2 ph.2
  let gs := max a.min_speed (min a.max_speed (a.ground_speed + ps.1))
  let pa := randUniform r (-50) 50 ps.2
  let alt := max 1000 (min 60000 (a.altitude + pa.1))
  ({ a with heading := heading, ground_speed := gs, altitude := alt }, pa.2)

/-- Waypoint-tracking phase of `Aircraft.update_position` (the body of the
`if self.current_waypoint_index < len(self.waypoints)` block): set
`target_heading` to the bearing of the current waypoint and, within 5 km
of it, advance the index, regenerating a fresh plan from the current
position (index reset to 0) when the index would run past the end. -/
def trackWaypoint (geo : Geo) (r : ℕ → ℚ) (a : Aircraft) (k : ℕ) :
    Aircraft × ℕ :=
  if a.current_waypoint_index < a.waypoints.length then
    let target := a.waypoints.getD a.current_waypoint_index ⟨0, 0, ""⟩
    let d := geo.distKm ⟨a.latitude, a.longitude⟩
      ⟨target.latitude, target.longitude⟩
    let b := geo.bearing ⟨a.latitude, a.longitude⟩
      ⟨target.latitude, target.longitude⟩
    let a1 := { a with target_heading := b }
    if d < 5 then
      if a1.current_waypoint_index + 1 ≥ a1.waypoints.length then
        let pw := genFlightPlan geo r a1.latitude a1.longitude [] k
        ({ a1 with waypoints := pw.1, current_waypoint_index := 0 }, pw.2)
      else ({ a1 with current_waypoint_index := a1.current_waypoint_index + 1 }, k)
    else (a1, k)
  else (a, k)

/-- Model of `Aircraft.update_position(delta_time)`: early return on an
empty plan, waypoint tracking, heading slew and modulo, speed slew,
altitude slew, great-circle translation, then random noise. -/
def updatePosition (geo : Geo) (r : ℕ → ℚ) (dt : ℚ) (a : Aircraft)
    (k : ℕ) : Aircraft × ℕ :=
  if a.waypoints.isEmpty then (a, k)
  else
    let p1 := trackWaypoint geo r a k
    let a1 := p1.1
    let headingDiff := normHD (a1.target_heading - a1.heading)
    let h1 :=
      if |headingDiff| > 3 * dt then
        a1.heading + (if headingDiff > 0 then 1 else -1) * 3 * dt
      else a1.target_heading
    let a2 := { a1 with heading := fmod h1 360 }
    let a3 := updateSpeed dt a2
    let a4 := updateAltitude dt a3
    let dkm := a4.ground_speed * (1852 / 1000) * (dt / 3600)
    let a5 :=
      if dkm > 0 then
        let np := geo.dest ⟨a4.latitude, a4.longitude⟩ dkm a4.heading
        { a4 with latitude := np.lat, longitude := np.lon }
      else a4
    addVariations r a5 p1.2

/-- Iterated `update_position` calls with the draw cursor threaded
through. -/
def iterUpdate (geo : Geo) (r : ℕ → ℚ) (dt : ℚ) :
    ℕ → Aircraft × ℕ → Aircraft × ℕ
  | 0, p => p
  | n + 1, p => iterUpdate geo r dt n (updatePosition geo r dt p.1 p.2)

/-! ## Emergency and conflict flags -/

/-- Model of `Aircraft.trigger_emergency(emergency_type)`: set
`emergency_state` and look the squawk up in the emergency table with
default `"7700"`. -/
def triggerEmergency (kind : String) (a : Aircraft) : Aircraft :=
  let table : List (String × String) :=
    [("hijack", "7500"), ("communication", "7600"), ("general", "7700")]
  { a with emergency_state := true
           squawk := ((table.find? (fun p => p.1 = kind)).map Prod.snd).getD "7700" }

/-- Model of `Aircraft.clear_emergency()`. -/
def clearEmergency (a : Aircraft) : Aircraft :=
  { a with emergency_state := false, squawk := "1200" }

/-- Model of `Aircraft.set_conflict_state(in_conflict)`. -/
def setConflictState (b : Bool) (a : Aircraft) : Aircraft :=
  { a with conflict_state := b }

/-- The public mutating operations available on one aircraft after
construction. -/
inductive AirOp where
  | update (dt : ℚ)
  | trigger (kind : String)
  | clear
  | setConflict (b : Bool)

/-- Apply one aircraft operation, threading the draw cursor. -/
def applyOp (geo : Geo) (r : ℕ → ℚ) : AirOp → Aircraft × ℕ → Aircraft × ℕ
  | AirOp.update dt, p => updatePosition geo r dt p.1 p.2
  | AirOp.trigger kind, p => (triggerEmergency kind p.1, p.2)
  | AirOp.clear, p => (clearEmergency p.1, p.2)
  | AirOp.setConflict b, p => (setConflictState b p.1, p.2)

/-- Apply a sequence of aircraft operations in order. -/
def applyOps (geo : Geo) (r : ℕ → ℚ) (ops : List AirOp)
    (p : Aircraft × ℕ) : Aircraft × ℕ :=
  ops.foldl (fun q op => applyOp geo r op q) p

/-! ## Separation scan -/

/-- Conflict test of `_check_separation_conflicts` for one pair:
horizontal distance strictly below 5 nm and vertical separation strictly
below 1000 ft. -/
def conflictCond (geo : Geo) (a b : Aircraft) : Bool :=
  decide (geo.distNm ⟨a.latitude, a.longitude⟩ ⟨b.latitude, b.longitude⟩ < 5)
    && decide (|a.altitude - b.altitude| < 1000)

/-- First pass of `_check_separation_conflicts`: the list of index pairs
`(i, j)` with `i < j` whose aircraft are in conflict, in loop order. -/
def conflictPairs (geo : Geo) (fleet : List Aircraft) : List (ℕ × ℕ) :=
  (List.range fleet.length).flatMap (fun i =>
    (((List.range fleet.length).filter (fun j => decide (i < j))).filter
      (fun j => conflictCond geo (fleet.getD i blankAircraft)
        (fleet.getD j blankAircraft))).map (fun j => (i, j)))

/-- Replace the element at one index by the image under `f` (identity out
of range); models mutating one object held in the fleet list. -/
def modifyAt (f : Aircraft → Aircraft) : List Aircraft → ℕ → List Aircraft
  | [], _ => []
  | a :: tl, 0 => f a :: tl
  | a :: tl, n + 1 => a :: modifyAt f tl n

/-- Set the conflict flag of the aircraft at one index. -/
def setConflictAt (fl : List Aircraft) (i : ℕ) : List Aircraft :=
  modifyAt (setConflictState true) fl i

/-- Model of `ADSBSimulator._check_separation_conflicts()`: collect the
conflicting pairs, clear every flag, set both flags of each conflicting
pair, and return the new fleet with the number of conflicting pairs. -/
def separationScan (geo : Geo) (fleet : List Aircraft) :
    List Aircraft × ℕ :=
  let pairs := conflictPairs geo fleet
  let cleared := fleet.map (setConflictState false)
  let flagged := pairs.foldl
    (fun fl pr => setConflictAt (setConflictAt fl pr.1) pr.2) cleared
  (flagged, pairs.length)

/-! ## Publisher -/

/-- Outcome of one `producer.produce(...)` call on the bus client. -/
inductive ProduceBehavior where
  | succeeds
  | raises (msg : String)
deriving DecidableEq

/-- The enqueue attempt as the fallible action inside the `try` block. -/
def produceAttempt : ProduceBehavior → Except String Unit
  | ProduceBehavior.succeeds => Except.ok ()
  | ProduceBehavior.raises m => Except.error m

/-- Model of `ADSBSimulator._publish_message`: early return when the
producer is absent; otherwise try the enqueue and increment
`messages_sent` only after it returns, catching and logging any
exception.  Result: new counter value and the logged error, if any (no
exception ever propagates to the caller). -/
def publishMessage (producer : Option ProduceBehavior) (sent : ℕ) :
    ℕ × Option String :=
  match producer with
  | none => (sent, none)
  | some pb =>
    match produceAttempt pb with
    | Except.ok _ => (sent + 1, none)
    | Except.error m => (sent, some m)

/-! ## Fleet phases of the tick loop -/

/-- Per-aircraft phase of the tick loop body (`run`, first `for` loop):
update the aircraft position, then draw the emission Bernoulli test
`random.random() < 1 / random.uniform(min_interval, max_interval)` and,
when it fires, publish the report (which only touches the
`messages_sent` counter).  Returns the new fleet, cursor and counter. -/
def advanceFleet (geo : Geo) (r : ℕ → ℚ) (dt minI maxI : ℚ)
    (producer : Option ProduceBehavior) :
    List Aircraft → ℕ → ℕ → List Aircraft × ℕ × ℕ
  | [], k, sent => ([], k, sent)
  | a :: rest, k, sent =>
    let p := updatePosition geo r dt a k
    let pu := randUnit r p.2
    let pint := randUniform r minI maxI pu.2
    let sent1 := if pu.1 < 1 / pint.1 then (publishMessage producer sent).1
                 else sent
    let q := advanceFleet geo r dt minI maxI producer rest pint.2 sent1
    (p.1 :: q.1, q.2.1, q.2.2)

/-- Model of `ADSBSimulator._trigger_random_emergencies`: each aircraft
not already in emergency is, with probability `freq`, given a uniformly
chosen emergency kind. -/
def sampleEmergencies (r : ℕ → ℚ) (freq : ℚ) :
    List Aircraft → ℕ → List Aircraft × ℕ
  | [], k => ([], k)
  | a :: rest, k =>
    if a.emergency_state then
      let q := sampleEmergencies r freq rest k
      (a :: q.1, q.2)
    else
      let pu := randUnit r k
      if pu.1 < freq then
        let pc := randUnit r pu.2
        let kinds : List String := ["general", "communication", "hijack"]
        let kind := kinds.getD (Int.toNat ⌊pc.1 * 3⌋) "general"
        let q := sampleEmergencies r freq rest pc.2
        (triggerEmergency kind a :: q.1, q.2)
      else
        let q := sampleEmergencies r freq rest pu.2
        (a :: q.1, q.2)

/-- One pass of the `run` loop over the kernel state
`(fleet, cursor, messages_sent)`: per-aircraft advance and emission,
separation scan, emergency sampling.  The remaining statements of the
pass (`poll(0)` and the statistics heartbeat) do not touch any aircraft
state or the counter. -/
def tickStep (geo : Geo) (r : ℕ → ℚ) (dt minI maxI freq : ℚ)
    (producer : Option ProduceBehavior)
    (st : List Aircraft × ℕ × ℕ) : List Aircraft × ℕ × ℕ :=
  let p1 := advanceFleet geo r dt minI maxI producer st.1 st.2.1 st.2.2
  let p2 := separationScan geo p1.1
  let p3 := sampleEmergencies r freq p2.1 p1.2.1
  (p3.1, p3.2, p1.2.2)

/-- Iterated tick passes. -/
def iterTick (geo : Geo) (r : ℕ → ℚ) (dt minI maxI freq : ℚ)
    (producer : Option ProduceBehavior) :
    ℕ → List Aircraft × ℕ × ℕ → List Aircraft × ℕ × ℕ
  | 0, st => st
  | n + 1, st => iterTick geo r dt minI maxI freq producer n
      (tickStep geo r dt minI maxI freq producer st)

/-! ## Configuration -/

/-- The `simulation` mapping of the YAML file; every key may be absent. -/
structure SimulationSection where
  num_aircraft : Option ℕ
  message_interval_min : Option ℚ
  message_interval_max : Option ℚ
  emergency_frequency : Option ℚ
  separation_frequency : Option ℚ
deriving DecidableEq

/-- The `kafka` mapping of the YAML file. -/
structure KafkaSection where
  bootstrap_servers : Option String
  topic : Option String
deriving DecidableEq

/-- The `aircraft_types` mapping of the YAML file. -/
structure TypesSection where
  jet_ratio : Option ℚ
deriving DecidableEq

/-- A parsed configuration file: any mapping may be absent. -/
structure RawConfig where
  simulation : Option SimulationSection
  kafka : Option KafkaSection
  aircraft_types : Option TypesSection
deriving DecidableEq

/-- The literal default record returned by `_load_config` on failure. -/
def defaultConfig : RawConfig :=
  { simulation := some
      { num_aircraft := some 75
        message_interval_min := some 1
        message_interval_max := some 5
        emergency_frequency := some (1/1000)
        separation_frequency := some (2/1000) }
    kafka := some
      { bootstrap_servers := some "localhost:9092"
        topic := some "adsb_messages" }
    aircraft_types := some { jet_ratio := some (7/10) } }

/-- Model of `ADSBSimulator._load_config`: the parsed file on success,
the whole default record when opening or parsing failed. -/
def loadConfig : Except String RawConfig → RawConfig
  | Except.ok c => c
  | Except.error _ => defaultConfig

/-- Dictionary access `config['simulation']['num_aircraft']`: a missing
mapping or key raises `KeyError`. -/
def cfgNumAircraft (c : RawConfig) : Except String ℕ :=
  match c.simulation with
  | none => Except.error "KeyError: simulation"
  | some s =>
    match s.num_aircraft with
    | none => Except.error "KeyError: num_aircraft"
    | some v => Except.ok v

/-- Dictionary access `config['aircraft_types']['jet_ratio']`. -/
def cfgJetRatio (c : RawConfig) : Except String ℚ :=
  match c.aircraft_types with
  | none => Except.error "KeyError: aircraft_types"
  | some s =>
    match s.jet_ratio with
    | none => Except.error "KeyError: jet_ratio"
    | some v => Except.ok v

/-- The configuration reads of `_generate_aircraft_fleet`, which run
outside any exception handler during startup. -/
def fleetGenAccess (c : RawConfig) : Except String (ℕ × ℚ) := do
  let n ← cfgNumAircraft c
  let jr ← cfgJetRatio c
  pure (n, jr)

/-- Model of `_setup_kafka`: every statement, including the
`config['kafka'][...]` reads, runs inside `try ... except Exception`, so
a missing key or an unreachable bus can never escape; on any failure the
producer is left as `None`. -/
def setupKafka (c : RawConfig) (bus : Except String ProduceBehavior) :
    Option ProduceBehavior :=
  match c.kafka with
  | none => none
  | some ks =>
    match ks.bootstrap_servers, ks.topic with
    | some _, some _ =>
      match bus with
      | Except.ok pb => some pb
      | Except.error _ => none
    | _, _ => none

/-- Model of `ADSBSimulator.__init__`: load the configuration, set up the
producer (exceptions swallowed), then generate the fleet, whose
configuration reads may raise `KeyError` out of the constructor. -/
def simStartup (parsed : Except String RawConfig)
    (bus : Except String ProduceBehavior) :
    Except String (RawConfig × Option ProduceBehavior) :=
  let c := loadConfig parsed
  let producer := setupKafka c bus
  match fleetGenAccess c with
  | Except.error e => Except.error e
  | Except.ok _ => Except.ok (c, producer)

/-! ## Run loop outcome and process exit code -/

/-- How a given execution of the `while self.running` loop ends. -/
inductive TickEnd where
  | clean
  | interrupt
  | failure (msg : String)
deriving DecidableEq

/-- Observable outcome of `ADSBSimulator.run()` for each way the loop
ends, following the `try/except KeyboardInterrupt/except Exception/
finally` structure of the source: both handlers log and fall through,
`finally` always calls `self.stop()` (the drain), and no exception is
re-raised. -/
structure RunTrace where
  loggedError : Bool
  drained : Bool
  escaped : Option String
deriving DecidableEq

/-- Model of `ADSBSimulator.run()`. -/
def runLoop : TickEnd → RunTrace
  | TickEnd.clean => { loggedError := false, drained := true, escaped := none }
  | TickEnd.interrupt => { loggedError := false, drained := true, escaped := none }
  | TickEnd.failure _ => { loggedError := true, drained := true, escaped := none }

/-- Model of `main()`: construct the simulator and run it inside
`try ... except Exception: sys.exit(1)`; a normal return from `main`
exits the process with code 0. -/
def mainExit (parsed : Except String RawConfig)
    (bus : Except String ProduceBehavior) (t : TickEnd) : ℕ :=
  match simStartup parsed bus with
  | Except.error _ => 1
  | Except.ok _ =>
    match (runLoop t).escaped with
    | some _ => 1
    | none => 0

/-! ## Tick-pass event trace -/

/-- Observable phases of one pass of the `run` loop. -/
inductive TickEvent where
  | advance (i : ℕ)
  | emitTest (i : ℕ)
  | scan
  | emergencies
  | pump
  | stats
deriving DecidableEq

/-- Event trace of one pass of the `run` loop over a fleet of `n`
aircraft, in source order: a single `for` loop interleaves each
aircraft's `update_position` with its own emission test, then the
separation scan, the emergency sampling, the producer `poll(0)` and the
statistics heartbeat follow. -/
def tickTrace (n : ℕ) : List TickEvent :=
  (List.range n).flatMap
      (fun i => [TickEvent.advance i, TickEvent.emitTest i])
    ++ [TickEvent.scan, TickEvent.emergencies, TickEvent.pump,
        TickEvent.stats]

/-- Position of the first occurrence of an event in a trace (length of
the trace when absent). -/
def posOf (e : TickEvent) : List TickEvent → ℕ
  | [] => 0
  | x :: xs => if x = e then 0 else posOf e xs + 1

/-- Helper scan: `true` iff no `advance` event occurs after some
`emitTest` event has already occurred (`seen` carries whether an
emission test has been passed). -/
def noAdvanceAfterEmit (seen : Bool) : List TickEvent → Bool
  | [] => true
  | TickEvent.advance _ :: rest =>
    if seen then false else noAdvanceAfterEmit seen rest
  | TickEvent.emitTest _ :: rest => noAdvanceAfterEmit true rest
  | _ :: rest => noAdvanceAfterEmit seen rest

/-- Whether every `advance` event of a trace precedes every `emitTest`
event — the phase separation asserted by the specification. -/
def advancePhaseFirst (t : List TickEvent) : Bool :=
  noAdvanceAfterEmit false t

/-- Interleaved per-aircraft portion of the tick trace. -/
def perAircraftTrace (n : ℕ) : List TickEvent :=
  (List.range n).flatMap
    (fun i => [TickEvent.advance i, TickEvent.emitTest i])

/-! ## Stated properties -/

/-- The kinematic bounds of spec properties P1–P3: heading normalised to
`[0, 360)`, altitude within `[1000, 60000]`, ground speed within the
aircraft's `[min_speed, max_speed]`. -/
def KinBounds (a : Aircraft) : Prop :=
  0 ≤ a.heading ∧ a.heading < 360 ∧
    1000 ≤ a.altitude ∧ a.altitude ≤ 60000 ∧
    a.min_speed ≤ a.ground_speed ∧ a.ground_speed ≤ a.max_speed

/-- The speed envelope `_initialize_flight_parameters` assigns for the
aircraft's category. -/
def CategoryEnvelope (a : Aircraft) : Prop :=
  (a.aircraft_type = "jet" ∧ a.min_speed = 200 ∧ a.max_speed = 600) ∨
  (a.aircraft_type ≠ "jet" ∧ a.min_speed = 80 ∧ a.max_speed = 250)

/-- Spec property P6: the squawk is `"1200"` exactly when no emergency is
active. -/
def SquawkInv (a : Aircraft) : Prop :=
  (a.squawk = "1200" ↔ a.emergency_state = false)

/-- Specification-side conflict count for the separation scan, written
from the spec's words: the number of unordered index pairs `(i, j)` with
`i < j` whose aircraft are closer than 5 nm horizontally and 1000 ft
vertically. -/
def specConflictCount (geo : Geo) (fleet : List Aircraft) : ℕ :=
  ((Finset.range fleet.length ×ˢ Finset.range fleet.length).filter
    (fun p => p.1 < p.2 ∧
      conflictCond geo (fleet.getD p.1 blankAircraft)
        (fleet.getD p.2 blankAircraft) = true)).card

/-- Membership of aircraft `i` in at least one currently conflicting
pair. -/
def InConflictPair (geo : Geo) (fleet : List Aircraft) (i : ℕ) : Prop :=
  ∃ j, j < fleet.length ∧
    ((i < j ∧ conflictCond geo (fleet.getD i blankAircraft)
        (fleet.getD j blankAircraft) = true) ∨
     (j < i ∧ conflictCond geo (fleet.getD j blankAircraft)
        (fleet.getD i blankAircraft) = true))

/-! ## Concrete objects used to instantiate the theorems -/

/-- A concrete waypoint. -/
def wpA : Waypoint := ⟨1, 1, "WPT1"⟩

/-- A concrete jet with an active one-waypoint plan and in-envelope
kinematic state. -/
def sampleJet : Aircraft :=
  { blankAircraft with
    icao_address := "ABC123", aircraft_type := "jet"
    min_speed := 200, max_speed := 600
    ground_speed := 450, target_speed := 450
    altitude := 35000, target_altitude := 35000, climb_rate := 1800
    heading := 90, target_heading := 90
    waypoints := [wpA], current_waypoint_index := 0 }

/-- The concrete jet with an active emergency. -/
def emergencyJet : Aircraft :=
  { sampleJet with emergency_state := true, squawk := "7700" }

/-- A pair of aircraft at identical positions and altitudes (every
geodesy function applied to them is evaluated through `trivGeo`). -/
def fleetPair : List Aircraft :=
  [{ blankAircraft with icao_address := "A", altitude := 35000 },
   { blankAircraft with icao_address := "B", altitude := 35000 }]

/-- A concrete operation sequence exercising every public mutator. -/
def sampleOps : List AirOp :=
  [AirOp.trigger "hijack", AirOp.update 1, AirOp.setConflict true,
   AirOp.clear, AirOp.trigger "bogus", AirOp.update (1/10)]

/-- A parsed configuration whose `simulation` mapping is present but
lacks the `num_aircraft` key (all other keys present). -/
def cfgMissingKey : RawConfig :=
  { simulation := some
      { num_aircraft := none
        message_interval_min := some 1
        message_interval_max := some 5
        emergency_frequency := some (1/1000)
        separation_frequency := some (2/1000) }
    kafka := some
      { bootstrap_servers := some "localhost:9092"
        topic := some "adsb_messages" }
    aircraft_types := some { jet_ratio := some (7/10) } }

/-! ## Helper lemmas about the random-stream primitives -/

theorem randUniform_mem {r : ℕ → ℚ} (hr : UnitRng r) {a b : ℚ}
    (hab : a ≤ b) (k : ℕ) :
    a ≤ (randUniform r a b k).1 ∧ (randUniform r a b k).1 ≤ b := by
  obtain ⟨h0, h1⟩ := hr k
  unfold randUniform
  constructor <;> simp only <;> nlinarith

theorem randIntIn_mem {r : ℕ → ℚ} (hr : UnitRng r) {a b : ℤ}
    (hab : a ≤ b) (k : ℕ) :
    a ≤ (randIntIn r a b k).1 ∧ (randIntIn r a b k).1 ≤ b := by
  obtain ⟨h0, h1⟩ := hr k
  have hcast : (a : ℚ) ≤ (b : ℚ) := by exact_mod_cast hab
  have hb : (0 : ℚ) ≤ (b : ℚ) - (a : ℚ) + 1 := by linarith
  unfold randIntIn
  constructor
  · simp only
    have hfl : 0 ≤ ⌊r k * ((b : ℚ) - (a : ℚ) + 1)⌋ :=
      Int.floor_nonneg.2 (mul_nonneg h0 hb)
    omega
  · simp only
    have hlt : r k * ((b : ℚ) - (a : ℚ) + 1) < ((b - a + 1 : ℤ) : ℚ) := by
      push_cast
      nlinarith
    have hfl : ⌊r k * ((b : ℚ) - (a : ℚ) + 1)⌋ < b - a + 1 :=
      Int.floor_lt.2 hlt
    omega

theorem fmod_mem (x : ℚ) {m : ℚ} (hm : 0 < m) :
    0 ≤ fmod x m ∧ fmod x m < m := by
  unfold fmod
  have h1 : ((⌊x / m⌋ : ℤ) : ℚ) ≤ x / m := Int.floor_le _
  have h2 : x / m < ⌊x / m⌋ + 1 := Int.lt_floor_add_one _
  have hx : m * (x / m) = x := by field_simp
  constructor <;> nlinarith

/-! ## Trace-position helper lemmas -/

theorem posOf_append_left {e : TickEvent} {l1 l2 : List TickEvent}
    (h : e ∈ l1) : posOf e (l1 ++ l2) = posOf e l1 := by
  induction l1 with
  | nil => cases h
  | cons x xs ih =>
    rcases List.mem_cons.1 h with hx | hx
    · simp [posOf, hx]
    · by_cases hxe : x = e
      · simp [posOf, hxe]
      · simp [posOf, hxe, ih hx]

theorem posOf_append_right {e : TickEvent} {l1 l2 : List TickEvent}
    (h : e ∉ l1) : posOf e (l1 ++ l2) = l1.length + posOf e l2 := by
  induction l1 with
  | nil => simp [posOf]
  | cons x xs ih =>
    have hxe : x ≠ e := fun hc => h (hc ▸ List.mem_cons_self x xs)
    have hxs : e ∉ xs := fun hc => h (List.mem_cons_of_mem x hc)
    simp [posOf, hxe, ih hxs]
    omega

theorem mem_perAircraftTrace {n : ℕ} {x : TickEvent} :
    x ∈ perAircraftTrace n ↔
      ∃ i, i < n ∧ (x = TickEvent.advance i ∨ x = TickEvent.emitTest i) := by
  simp only [perAircraftTrace, List.mem_flatMap, List.mem_range,
    List.mem_cons, List.mem_singleton, List.not_mem_nil, or_false]

theorem perAircraftTrace_succ (n : ℕ) :
    perAircraftTrace (n + 1) =
      perAircraftTrace n ++ [TickEvent.advance n, TickEvent.emitTest n] := by
  unfold perAircraftTrace
  rw [List.range_succ, List.flatMap_append]
  simp

theorem length_perAircraftTrace (n : ℕ) :
    (perAircraftTrace n).length = 2 * n := by
  induction n with
  | zero => rfl
  | succ m ih =>
    rw [perAircraftTrace_succ, List.length_append, ih]
    simp
    omega

theorem posOf_advance_perAircraft {n i : ℕ} (hi : i < n) :
    posOf (TickEvent.advance i) (perAircraftTrace n) = 2 * i := by
  induction n with
  | zero => omega
  | succ m ih =>
    rcases Nat.lt_succ_iff_lt_or_eq.1 hi with hlt | heq
    · rw [perAircraftTrace_succ,
        posOf_append_left (mem_perAircraftTrace.2 ⟨i, hlt, Or.inl rfl⟩)]
      exact ih hlt
    · subst heq
      have hnm : TickEvent.advance i ∉ perAircraftTrace i := by
        intro hc
        rcases mem_perAircraftTrace.1 hc with ⟨j, hj, hx | hx⟩ <;>
          simp_all
      rw [perAircraftTrace_succ, posOf_append_right hnm,
        length_perAircraftTrace]
      simp [posOf]

theorem posOf_emitTest_perAircraft {n i : ℕ} (hi : i < n) :
    posOf (TickEvent.emitTest i) (perAircraftTrace n) = 2 * i + 1 := by
  induction n with
  | zero => omega
  | succ m ih =>
    rcases Nat.lt_succ_iff_lt_or_eq.1 hi with hlt | heq
    · rw [perAircraftTrace_succ,
        posOf_append_left (mem_perAircraftTrace.2 ⟨i, hlt, Or.inr rfl⟩)]
      exact ih hlt
    · subst heq
      have hnm : TickEvent.emitTest i ∉ perAircraftTrace i := by
        intro hc
        rcases mem_perAircraftTrace.1 hc with ⟨j, hj, hx | hx⟩ <;>
          simp_all
      rw [perAircraftTrace_succ, posOf_append_right hnm,
        length_perAircraftTrace]
      simp [posOf]

theorem tickTrace_eq (n : ℕ) :
    tickTrace n = perAircraftTrace n ++
      [TickEvent.scan, TickEvent.emergencies, TickEvent.pump,
       TickEvent.stats] := rfl

theorem posOf_tail_event {n : ℕ} {e : TickEvent}
    (he : ∀ i, e ≠ TickEvent.advance i ∧ e ≠ TickEvent.emitTest i) :
    posOf e (tickTrace n) = 2 * n +
      posOf e [TickEvent.scan, TickEvent.emergencies, TickEvent.pump,
        TickEvent.stats] := by
  have hnm : e ∉ perAircraftTrace n := by
    intro hc
    rcases mem_perAircraftTrace.1 hc with ⟨j, _, hx | hx⟩
    · exact (he j).1 hx
    · exact (he j).2 hx
  rw [tickTrace_eq, posOf_append_right hnm, length_perAircraftTrace]

/-! ## Field-preservation lemmas for the kinematic update -/

@[simp] theorem updateSpeed_min_speed (dt : ℚ) (b : Aircraft) :
    (updateSpeed dt b).min_speed = b.min_speed := rfl

@[simp] theorem updateSpeed_max_speed (dt : ℚ) (b : Aircraft) :
    (updateSpeed dt b).max_speed = b.max_speed := rfl

@[simp] theorem updateSpeed_squawk (dt : ℚ) (b : Aircraft) :
    (updateSpeed dt b).squawk = b.squawk := rfl

@[simp] theorem updateSpeed_emergency (dt : ℚ) (b : Aircraft) :
    (updateSpeed dt b).emergency_state = b.emergency_state := rfl

@[simp] theorem updateSpeed_waypoints (dt : ℚ) (b : Aircraft) :
    (updateSpeed dt b).waypoints = b.waypoints := rfl

@[simp] theorem updateSpeed_index (dt : ℚ) (b : Aircraft) :
    (updateSpeed dt b).current_waypoint_index = b.current_waypoint_index :=
  rfl

@[simp] theorem updateSpeed_type (dt : ℚ) (b : Aircraft) :
    (updateSpeed dt b).aircraft_type = b.aircraft_type := rfl

@[simp] theorem updateAltitude_min_speed (dt : ℚ) (b : Aircraft) :
    (updateAltitude dt b).min_speed = b.min_speed := rfl

@[simp] theorem updateAltitude_max_speed (dt : ℚ) (b : Aircraft) :
    (updateAltitude dt b).max_speed = b.max_speed := rfl

@[simp] theorem updateAltitude_squawk (dt : ℚ) (b : Aircraft) :
    (updateAltitude dt b).squawk = b.squawk := rfl

@[simp] theorem updateAltitude_emergency (dt : ℚ) (b : Aircraft) :
    (updateAltitude dt b).emergency_state = b.emergency_state := rfl

@[simp] theorem updateAltitude_waypoints (dt : ℚ) (b : Aircraft) :
    (updateAltitude dt b).waypoints = b.waypoints := rfl

@[simp] theorem updateAltitude_index (dt : ℚ) (b : Aircraft) :
    (updateAltitude dt b).current_waypoint_index =
      b.current_waypoint_index := rfl

@[simp] theorem updateAltitude_type (dt : ℚ) (b : Aircraft) :
    (updateAltitude dt b).aircraft_type = b.aircraft_type := rfl

@[simp] theorem addVariations_min_speed (r : ℕ → ℚ) (b : Aircraft) (k : ℕ) :
    (addVariations r b k).1.min_speed = b.min_speed := rfl

@[simp] theorem addVariations_max_speed (r : ℕ → ℚ) (b : Aircraft) (k : ℕ) :
    (addVariations r b k).1.max_speed = b.max_speed := rfl

@[simp] theorem addVariations_squawk (r : ℕ → ℚ) (b : Aircraft) (k : ℕ) :
    (addVariations r b k).1.squawk = b.squawk := rfl

@[simp] theorem addVariations_emergency (r : ℕ → ℚ) (b : Aircraft) (k : ℕ) :
    (addVariations r b k).1.emergency_state = b.emergency_state := rfl

@[simp] theorem addVariations_waypoints (r : ℕ → ℚ) (b : Aircraft) (k : ℕ) :
    (addVariations r b k).1.waypoints = b.waypoints := rfl

@[simp] theorem addVariations_index (r : ℕ → ℚ) (b : Aircraft) (k : ℕ) :
    (addVariations r b k).1.current_waypoint_index =
      b.current_waypoint_index := rfl

@[simp] theorem addVariations_type (r : ℕ → ℚ) (b : Aircraft) (k : ℕ) :
    (addVariations r b k).1.aircraft_type = b.aircraft_type := rfl

@[simp] theorem trackWaypoint_min_speed (geo : Geo) (r : ℕ → ℚ)
    (b : Aircraft) (k : ℕ) :
    (trackWaypoint geo r b k).1.min_speed = b.min_speed := by
  unfold trackWaypoint
  dsimp only
  split_ifs <;> rfl

@[simp] theorem trackWaypoint_max_speed (geo : Geo) (r : ℕ → ℚ)
    (b : Aircraft) (k : ℕ) :
    (trackWaypoint geo r b k).1.max_speed = b.max_speed := by
  unfold trackWaypoint
  dsimp only
  split_ifs <;> rfl

@[simp] theorem trackWaypoint_squawk (geo : Geo) (r : ℕ → ℚ)
    (b : Aircraft) (k : ℕ) :
    (trackWaypoint geo r b k).1.squawk = b.squawk := by
  unfold trackWaypoint
  dsimp only
  split_ifs <;> rfl

@[simp] theorem trackWaypoint_emergency (geo : Geo) (r : ℕ → ℚ)
    (b : Aircraft) (k : ℕ) :
    (trackWaypoint geo r b k).1.emergency_state = b.emergency_state := by
  unfold trackWaypoint
  dsimp only
  split_ifs <;> rfl

@[simp] theorem trackWaypoint_type (geo : Geo) (r : ℕ → ℚ)
    (b : Aircraft) (k : ℕ) :
    (trackWaypoint geo r b k).1.aircraft_type = b.aircraft_type := by
  unfold trackWaypoint
  dsimp only
  split_ifs <;> rfl

theorem updatePosition_min_speed (geo : Geo) (r : ℕ → ℚ) (dt : ℚ)
    (b : Aircraft) (k : ℕ) :
    (updatePosition geo r dt b k).1.min_speed = b.min_speed := by
  unfold updatePosition
  dsimp only
  split_ifs <;> simp

theorem updatePosition_max_speed (geo : Geo) (r : ℕ → ℚ) (dt : ℚ)
    (b : Aircraft) (k : ℕ) :
    (updatePosition geo r dt b k).1.max_speed = b.max_speed := by
  unfold updatePosition
  dsimp only
  split_ifs <;> simp

theorem updatePosition_squawk (geo : Geo) (r : ℕ → ℚ) (dt : ℚ)
    (b : Aircraft) (k : ℕ) :
    (updatePosition geo r dt b k).1.squawk = b.squawk := by
  unfold updatePosition
  dsimp only
  split_ifs <;> simp

theorem updatePosition_emergency (geo : Geo) (r : ℕ → ℚ) (dt : ℚ)
    (b : Aircraft) (k : ℕ) :
    (updatePosition geo r dt b k).1.emergency_state = b.emergency_state := by
  unfold updatePosition
  dsimp only
  split_ifs <;> simp

theorem updatePosition_type (geo : Geo) (r : ℕ → ℚ) (dt : ℚ)
    (b : Aircraft) (k : ℕ) :
    (updatePosition geo r dt b k).1.aircraft_type = b.aircraft_type := by
  unfold updatePosition
  dsimp only
  split_ifs <;> simp

/-! ## Bounds helpers for the kinematic update -/

theorem addVariations_bounds (r : ℕ → ℚ) (b : Aircraft) (k : ℕ)
    (hms : b.min_speed ≤ b.max_speed) :
    KinBounds (addVariations r b k).1 := by
  obtain ⟨hf0, hf1⟩ := fmod_mem
    (b.heading + (randUniform r (-(1/2)) (1/2) k).1)
    (by norm_num : (0:ℚ) < 360)
  unfold addVariations KinBounds
  refine ⟨hf0, hf1, le_max_left _ _,
    max_le (by norm_num) (min_le_left _ _), le_max_left _ _,
    max_le hms (min_le_left _ _)⟩

theorem updatePosition_bounds (geo : Geo) (r : ℕ → ℚ) (dt : ℚ)
    (a : Aircraft) (k : ℕ) (hms : a.min_speed ≤ a.max_speed)
    (hne : a.waypoints ≠ []) :
    KinBounds (updatePosition geo r dt a k).1 := by
  have hemp : a.waypoints.isEmpty = false := by
    simpa [List.isEmpty_iff] using hne
  unfold updatePosition
  rw [hemp]
  simp only [Bool.false_eq_true, if_false]
  apply addVariations_bounds
  split_ifs <;> simp [hms]

theorem updatePosition_env_step (geo : Geo) (r : ℕ → ℚ) (dt : ℚ)
    (b : Aircraft) (k : ℕ) (henv : CategoryEnvelope b) :
    CategoryEnvelope (updatePosition geo r dt b k).1 := by
  unfold CategoryEnvelope at henv ⊢
  rw [updatePosition_min_speed, updatePosition_max_speed,
    updatePosition_type]
  exact henv

theorem categoryEnvelope_min_le_max {b : Aircraft}
    (henv : CategoryEnvelope b) : b.min_speed ≤ b.max_speed := by
  rcases henv with ⟨_, h1, h2⟩ | ⟨_, h1, h2⟩ <;> rw [h1, h2] <;> norm_num

theorem updatePosition_step_bounds (geo : Geo) (r : ℕ → ℚ) (dt : ℚ)
    (b : Aircraft) (k : ℕ) (hms : b.min_speed ≤ b.max_speed)
    (h : b.waypoints ≠ [] ∨ KinBounds b) :
    KinBounds (updatePosition geo r dt b k).1 := by
  rcases h with hne | hb
  · exact updatePosition_bounds geo r dt b k hms hne
  · by_cases hne : b.waypoints = []
    · have hemp : b.waypoints.isEmpty = true := by
        simp [List.isEmpty_iff, hne]
      unfold updatePosition
      rw [hemp]
      simpa using hb
    · exact updatePosition_bounds geo r dt b k hms hne

theorem iterUpdate_keeps_bounds (geo : Geo) (r : ℕ → ℚ) (dt : ℚ) :
    ∀ (m : ℕ) (p : Aircraft × ℕ), p.1.min_speed ≤ p.1.max_speed →
      KinBounds p.1 → KinBounds (iterUpdate geo r dt m p).1 := by
  intro m
  induction m with
  | zero => intro p _ hb; exact hb
  | succ j ih =>
    intro p hms hb
    unfold iterUpdate
    apply ih
    · rw [updatePosition_min_speed, updatePosition_max_speed]
      exact hms
    · exact updatePosition_step_bounds geo r dt p.1 p.2 hms (Or.inr hb)

/-! ## Separation-scan helpers -/

theorem mem_conflictPairs {geo : Geo} {fleet : List Aircraft}
    {p : ℕ × ℕ} :
    p ∈ conflictPairs geo fleet ↔
      p.1 < p.2 ∧ p.2 < fleet.length ∧
        conflictCond geo (fleet.getD p.1 blankAircraft)
          (fleet.getD p.2 blankAircraft) = true := by
  obtain ⟨i, j⟩ := p
  simp only [conflictPairs, List.mem_flatMap, List.mem_map,
    List.mem_filter, List.mem_range, decide_eq_true_eq, Prod.mk.injEq]
  constructor
  · rintro ⟨x, hx, y, ⟨⟨hy, hxy⟩, hcc⟩, rfl, rfl⟩
    exact ⟨hxy, hy, hcc⟩
  · rintro ⟨hij, hj, hcc⟩
    exact ⟨i, lt_trans hij hj, j, ⟨⟨hj, hij⟩, hcc⟩, rfl, rfl⟩

theorem nodup_conflictPairs (geo : Geo) (fleet : List Aircraft) :
    (conflictPairs geo fleet).Nodup := by
  unfold conflictPairs
  apply List.nodup_flatMap.2
  constructor
  · intro i _
    apply List.Nodup.map
    · intro x y hxy
      simpa using congrArg Prod.snd hxy
    · exact ((List.nodup_range _).filter _).filter _
  · have hr := List.nodup_range fleet.length
    refine List.Pairwise.imp ?_ hr
    intro x y hxy
    intro q hqx hqy
    rcases List.mem_map.1 hqx with ⟨a, _, rfl⟩
    rcases List.mem_map.1 hqy with ⟨b, _, hb⟩
    exact hxy (congrArg Prod.fst hb).symm

theorem conflictPairs_length (geo : Geo) (fleet : List Aircraft) :
    (conflictPairs geo fleet).length = specConflictCount geo fleet := by
  rw [← List.toFinset_card_of_nodup (nodup_conflictPairs geo fleet)]
  unfold specConflictCount
  congr 1
  ext p
  simp only [List.mem_toFinset, mem_conflictPairs, Finset.mem_filter,
    Finset.mem_product, Finset.mem_range]
  constructor
  · rintro ⟨h1, h2, h3⟩
    exact ⟨⟨lt_trans h1 h2, h2⟩, h1, h3⟩
  · rintro ⟨⟨_, h2⟩, h1, h3⟩
    exact ⟨h1, h2, h3⟩

theorem modifyAt_length (f : Aircraft → Aircraft) :
    ∀ (l : List Aircraft) (i : ℕ), (modifyAt f l i).length = l.length := by
  intro l
  induction l with
  | nil => intro i; rfl
  | cons a tl ih =>
    intro i
    cases i with
    | zero => rfl
    | succ m => simpa [modifyAt] using ih m

theorem getD_modifyAt_ne (f : Aircraft → Aircraft) :
    ∀ (l : List Aircraft) (i j : ℕ) (d : Aircraft), j ≠ i →
      (modifyAt f l i).getD j d = l.getD j d := by
  intro l
  induction l with
  | nil => intro i j d _; rfl
  | cons a tl ih =>
    intro i j d hne
    cases i with
    | zero =>
      cases j with
      | zero => exact absurd rfl hne
      | succ m => rfl
    | succ m =>
      cases j with
      | zero => rfl
      | succ q => simpa [modifyAt] using ih m q d (by omega)

theorem getD_modifyAt_eq (f : Aircraft → Aircraft) :
    ∀ (l : List Aircraft) (i : ℕ) (d : Aircraft), i < l.length →
      (modifyAt f l i).getD i d = f (l.getD i d) := by
  intro l
  induction l with
  | nil => intro i d hi; simp at hi
  | cons a tl ih =>
    intro i d hi
    cases i with
    | zero => rfl
    | succ m => simpa [modifyAt] using ih m d (by simpa using hi)

theorem setConflictAt_flag (fl : List Aircraft) (i j : ℕ) (d : Aircraft)
    (hj : j < fl.length) :
    (((setConflictAt fl i).getD j d).conflict_state = true ↔
      ((fl.getD j d).conflict_state = true ∨ i = j)) := by
  unfold setConflictAt
  by_cases h : i = j
  · subst h
    rw [getD_modifyAt_eq _ _ _ _ hj]
    simp [setConflictState]
  · rw [getD_modifyAt_ne _ _ _ _ _ (fun hc => h hc.symm)]
    simp [h]

theorem foldl_setConflict (d : Aircraft) :
    ∀ (ps : List (ℕ × ℕ)) (fl : List Aircraft),
      ((ps.foldl (fun f pr => setConflictAt (setConflictAt f pr.1) pr.2)
          fl).length = fl.length) ∧
      (∀ j, j < fl.length →
        (((ps.foldl (fun f pr =>
              setConflictAt (setConflictAt f pr.1) pr.2) fl).getD j
            d).conflict_state = true ↔
          ((fl.getD j d).conflict_state = true ∨
            ∃ pr ∈ ps, pr.1 = j ∨ pr.2 = j))) := by
  intro ps
  induction ps with
  | nil =>
    intro fl
    simp
  | cons pr ps ih =>
    intro fl
    have hlen : (setConflictAt (setConflictAt fl pr.1) pr.2).length
        = fl.length := by
      unfold setConflictAt
      rw [modifyAt_length, modifyAt_length]
    obtain ⟨ihlen, ihflag⟩ := ih (setConflictAt (setConflictAt fl pr.1) pr.2)
    constructor
    · simpa [List.foldl_cons, hlen] using ihlen
    · intro j hj
      rw [List.foldl_cons]
      rw [ihflag j (by rw [hlen]; exact hj)]
      rw [setConflictAt_flag _ _ _ _ (by
        unfold setConflictAt
        rw [modifyAt_length]
        exact hj)]
      rw [setConflictAt_flag _ _ _ _ hj]
      simp only [List.mem_cons]
      constructor
      · rintro ((((hb | h1) | h2) | ⟨q, hq, hqj⟩))
        · exact Or.inl hb
        · exact Or.inr ⟨pr, Or.inl rfl, Or.inl h1⟩
        · exact Or.inr ⟨pr, Or.inl rfl, Or.inr h2⟩
        · exact Or.inr ⟨q, Or.inr hq, hqj⟩
      · rintro (hb | ⟨q, hq, hqj⟩)
        · exact Or.inl (Or.inl (Or.inl hb))
        · rcases hq with rfl | hq
          · rcases hqj with h1 | h2
            · exact Or.inl (Or.inl (Or.inr h1))
            · exact Or.inl (Or.inr h2)
          · exact Or.inr ⟨q, hq, hqj⟩

theorem getD_map_lt (f : Aircraft → Aircraft) (l : List Aircraft) (j : ℕ)
    (d : Aircraft) (hj : j < l.length) :
    (l.map f).getD j d = f (l.getD j d) := by
  rw [List.getD_eq_getElem l d hj,
    List.getD_eq_getElem (l.map f) d (by simpa using hj),
    List.getElem_map]

/-! ## Claim C2 -/

/-- C2 (confirmed).  One call of the separation scan returns the number
of unordered index pairs `(i, j)` with `i < j` whose great-circle
distance is strictly below 5 nm and altitude difference strictly below
1000 ft, and afterwards each aircraft's `conflict_state` is true iff it
belongs to at least one such pair — in particular an aircraft flagged on
a previous tick but in no current pair is cleared, whatever the flags
were before the call, because the scan first clears every flag and then
sets both flags of each conflicting pair. -/
theorem separationScan_spec (geo : Geo) (fleet : List Aircraft) :
    (separationScan geo fleet).2 = specConflictCount geo fleet ∧
    (separationScan geo fleet).1.length = fleet.length ∧
    ∀ i, i < fleet.length →
      (((separationScan geo fleet).1.getD i blankAircraft).conflict_state
          = true ↔ InConflictPair geo fleet i) := by
  have hclen : (fleet.map (setConflictState false)).length = fleet.length :=
    List.length_map fleet _
  obtain ⟨hflen, hfflag⟩ :=
    foldl_setConflict blankAircraft (conflictPairs geo fleet)
      (fleet.map (setConflictState false))
  unfold separationScan
  dsimp only
  refine ⟨conflictPairs_length geo fleet, ?_, ?_⟩
  · rw [hflen, hclen]
  · intro i hi
    rw [hfflag i (by rw [hclen]; exact hi)]
    rw [getD_map_lt _ _ _ _ hi]
    simp only [setConflictState, Bool.false_eq_true, false_or]
    constructor
    · rintro ⟨⟨x, y⟩, hm, hxy | hxy⟩
      · obtain ⟨h1, h2, h3⟩ := mem_conflictPairs.1 hm
        subst hxy
        exact ⟨y, h2, Or.inl ⟨h1, h3⟩⟩
      · obtain ⟨h1, h2, h3⟩ := mem_conflictPairs.1 hm
        subst hxy
        exact ⟨x, lt_trans h1 h2, Or.inr ⟨h1, h3⟩⟩
    · rintro ⟨j, hj, ⟨hij, hcc⟩ | ⟨hji, hcc⟩⟩
      · exact ⟨(i, j), mem_conflictPairs.2 ⟨hij, hj, hcc⟩, Or.inl rfl⟩
      · exact ⟨(j, i), mem_conflictPairs.2 ⟨hji, hi, hcc⟩, Or.inr rfl⟩

/-! ## Emergency-monotonicity helpers -/

theorem modifyAt_ge (f : Aircraft → Aircraft) :
    ∀ (l : List Aircraft) (i : ℕ), l.length ≤ i → modifyAt f l i = l := by
  intro l
  induction l with
  | nil => intro i _; rfl
  | cons a tl ih =>
    intro i hi
    cases i with
    | zero => simp at hi
    | succ m =>
      show a :: modifyAt f tl m = a :: tl
      rw [ih m (by simpa using hi)]

theorem setConflictAt_em_sq (l : List Aircraft) (i j : ℕ) (d : Aircraft) :
    (((setConflictAt l i).getD j d).emergency_state
        = (l.getD j d).emergency_state) ∧
    (((setConflictAt l i).getD j d).squawk = (l.getD j d).squawk) := by
  unfold setConflictAt
  by_cases hij : j = i
  · subst hij
    by_cases hlen : j < l.length
    · rw [getD_modifyAt_eq _ _ _ _ hlen]
      exact ⟨rfl, rfl⟩
    · rw [modifyAt_ge _ _ _ (by omega)]
      exact ⟨rfl, rfl⟩
  · rw [getD_modifyAt_ne _ _ _ _ _ hij]
    exact ⟨rfl, rfl⟩

theorem foldl_setConflict_em_sq :
    ∀ (ps : List (ℕ × ℕ)) (fl : List Aircraft) (j : ℕ) (d : Aircraft),
      (((ps.foldl (fun f pr => setConflictAt (setConflictAt f pr.1) pr.2)
            fl).getD j d).emergency_state
          = (fl.getD j d).emergency_state) ∧
      (((ps.foldl (fun f pr => setConflictAt (setConflictAt f pr.1) pr.2)
            fl).getD j d).squawk = (fl.getD j d).squawk) := by
  intro ps
  induction ps with
  | nil => intro fl j d; exact ⟨rfl, rfl⟩
  | cons pr ps ih =>
    intro fl j d
    rw [List.foldl_cons]
    obtain ⟨ih1, ih2⟩ :=
      ih (setConflictAt (setConflictAt fl pr.1) pr.2) j d
    obtain ⟨ho1, ho2⟩ := setConflictAt_em_sq (setConflictAt fl pr.1) pr.2 j d
    obtain ⟨hi1, hi2⟩ := setConflictAt_em_sq fl pr.1 j d
    exact ⟨ih1.trans (ho1.trans hi1), ih2.trans (ho2.trans hi2)⟩

theorem separationScan_em_sq (geo : Geo) (fleet : List Aircraft)
    (j : ℕ) (d : Aircraft) :
    ((separationScan geo fleet).1.length = fleet.length) ∧
    (((separationScan geo fleet).1.getD j d).emergency_state
        = (fleet.getD j d).emergency_state) ∧
    (((separationScan geo fleet).1.getD j d).squawk
        = (fleet.getD j d).squawk) := by
  have hclen : (fleet.map (setConflictState false)).length = fleet.length :=
    List.length_map fleet _
  obtain ⟨hflen, _⟩ :=
    foldl_setConflict d (conflictPairs geo fleet)
      (fleet.map (setConflictState false))
  obtain ⟨he, hs⟩ :=
    foldl_setConflict_em_sq (conflictPairs geo fleet)
      (fleet.map (setConflictState false)) j d
  have hmap : (((fleet.map (setConflictState false)).getD j
        d).emergency_state = (fleet.getD j d).emergency_state) ∧
      (((fleet.map (setConflictState false)).getD j d).squawk
        = (fleet.getD j d).squawk) := by
    by_cases hj : j < fleet.length
    · rw [getD_map_lt _ _ _ _ hj]
      exact ⟨rfl, rfl⟩
    · have h2 : (fleet.map (setConflictState false)).length ≤ j := by
        rw [hclen]; omega
      rw [List.getD_eq_default (fleet.map (setConflictState false)) d h2,
        List.getD_eq_default fleet d (by omega)]
      exact ⟨rfl, rfl⟩
  unfold separationScan
  dsimp only
  exact ⟨by rw [hflen, hclen], he.trans hmap.1, hs.trans hmap.2⟩

theorem advanceFleet_pres (geo : Geo) (r : ℕ → ℚ) (dt minI maxI : ℚ)
    (producer : Option ProduceBehavior) :
    ∀ (fl : List Aircraft) (k sent : ℕ) (i : ℕ) (d : Aircraft),
      ((advanceFleet geo r dt minI maxI producer fl k sent).1.length
          = fl.length) ∧
      (((advanceFleet geo r dt minI maxI producer fl k
            sent).1.getD i d).emergency_state
          = (fl.getD i d).emergency_state) ∧
      (((advanceFleet geo r dt minI maxI producer fl k
            sent).1.getD i d).squawk = (fl.getD i d).squawk) := by
  intro fl
  induction fl with
  | nil => intro k sent i d; exact ⟨rfl, rfl, rfl⟩
  | cons a rest ih =>
    intro k sent i d
    unfold advanceFleet
    dsimp only
    cases i with
    | zero =>
      refine ⟨?_, ?_, ?_⟩
      · show _ + 1 = _ + 1
        rw [(ih _ _ 0 d).1]
      · exact updatePosition_emergency geo r dt a k
      · exact updatePosition_squawk geo r dt a k
    | succ m =>
      refine ⟨?_, ?_, ?_⟩
      · show _ + 1 = _ + 1
        rw [(ih _ _ 0 d).1]
      · exact (ih _ _ m d).2.1
      · exact (ih _ _ m d).2.2

theorem sampleEmergencies_mono (r : ℕ → ℚ) (freq : ℚ) :
    ∀ (fl : List Aircraft) (k : ℕ) (i : ℕ) (d : Aircraft),
      ((sampleEmergencies r freq fl k).1.length = fl.length) ∧
      ((fl.getD i d).emergency_state = true →
        (sampleEmergencies r freq fl k).1.getD i d = fl.getD i d) := by
  intro fl
  induction fl with
  | nil => intro k i d; exact ⟨rfl, fun _ => rfl⟩
  | cons a rest ih =>
    intro k i d
    unfold sampleEmergencies
    dsimp only
    by_cases ha : a.emergency_state
    · rw [if_pos ha]
      cases i with
      | zero => exact ⟨congrArg (· + 1) (ih k 0 d).1, fun _ => rfl⟩
      | succ m =>
        exact ⟨congrArg (· + 1) (ih k 0 d).1, fun h => (ih k m d).2 h⟩
    · rw [if_neg ha]
      split_ifs with hfreq
      · cases i with
        | zero =>
          refine ⟨congrArg (· + 1) (ih _ 0 d).1, fun h => ?_⟩
          exact absurd h (by simpa using ha)
        | succ m =>
          exact ⟨congrArg (· + 1) (ih _ 0 d).1, fun h => (ih _ m d).2 h⟩
      · cases i with
        | zero =>
          refine ⟨congrArg (· + 1) (ih _ 0 d).1, fun h => ?_⟩
          exact absurd h (by simpa using ha)
        | succ m =>
          exact ⟨congrArg (· + 1) (ih _ 0 d).1, fun h => (ih _ m d).2 h⟩

theorem tickStep_mono (geo : Geo) (r : ℕ → ℚ) (dt minI maxI freq : ℚ)
    (producer : Option ProduceBehavior) (st : List Aircraft × ℕ × ℕ)
    (i : ℕ) (d : Aircraft)
    (hem : (st.1.getD i d).emergency_state = true) :
    ((tickStep geo r dt minI maxI freq producer st).1.length
        = st.1.length) ∧
    (((tickStep geo r dt minI maxI freq producer st).1.getD i
        d).emergency_state = true) ∧
    (((tickStep geo r dt minI maxI freq producer st).1.getD i d).squawk
        = (st.1.getD i d).squawk) := by
  unfold tickStep
  dsimp only
  obtain ⟨ha_len, ha_em, ha_sq⟩ :=
    advanceFleet_pres geo r dt minI maxI producer st.1 st.2.1 st.2.2 i d
  obtain ⟨hs_len, hs_em, hs_sq⟩ :=
    separationScan_em_sq geo
      (advanceFleet geo r dt minI maxI producer st.1 st.2.1 st.2.2).1 i d
  have hem2 : ((separationScan geo
      (advanceFleet geo r dt minI maxI producer st.1 st.2.1
        st.2.2).1).1.getD i d).emergency_state = true := by
    rw [hs_em, ha_em]
    exact hem
  obtain ⟨he_len, he_eq⟩ :=
    sampleEmergencies_mono r freq
      (separationScan geo (advanceFleet geo r dt minI maxI producer st.1
        st.2.1 st.2.2).1).1
      (advanceFleet geo r dt minI maxI producer st.1 st.2.1 st.2.2).2.1 i d
  refine ⟨?_, ?_, ?_⟩
  · rw [he_len, hs_len, ha_len]
  · rw [he_eq hem2, hs_em, ha_em]
    exact hem
  · rw [he_eq hem2, hs_sq, ha_sq]

/-! ## Claim C10 -/

/-- C10 (confirmed).  Once an aircraft's `emergency_state` is true it
stays true, and its squawk stays unchanged (hence the emergency code),
for any number of further tick passes: `update_position` and the
separation scan touch neither field, `_trigger_random_emergencies` skips
aircraft already in emergency, and no code path of the tick loop calls
`clear_emergency` — so the set of aircraft in emergency only grows under
the tick step relation. -/
theorem emergency_monotone (geo : Geo) (r : ℕ → ℚ)
    (dt minI maxI freq : ℚ) (producer : Option ProduceBehavior) :
    ∀ (n : ℕ) (fleet : List Aircraft) (k sent : ℕ) (i : ℕ),
      (fleet.getD i blankAircraft).emergency_state = true →
      (((iterTick geo r dt minI maxI freq producer n
          (fleet, k, sent)).1.getD i blankAircraft).emergency_state
        = true) ∧
      (((iterTick geo r dt minI maxI freq producer n
          (fleet, k, sent)).1.getD i blankAircraft).squawk
        = (fleet.getD i blankAircraft).squawk) := by
  intro n
  induction n with
  | zero => intro fleet k sent i hem; exact ⟨hem, rfl⟩
  | succ m ih =>
    intro fleet k sent i hem
    obtain ⟨hlen, hem2, hsq2⟩ :=
      tickStep_mono geo r dt minI maxI freq producer (fleet, k, sent) i
        blankAircraft hem
    unfold iterTick
    obtain ⟨ih1, ih2⟩ :=
      ih (tickStep geo r dt minI maxI freq producer (fleet, k, sent)).1
        (tickStep geo r dt minI maxI freq producer (fleet, k, sent)).2.1
        (tickStep geo r dt minI maxI freq producer (fleet, k, sent)).2.2
        i hem2
    exact ⟨ih1, ih2.trans hsq2⟩

/-- Witness for C10: a single-aircraft fleet already in emergency keeps
its state and squawk across one tick pass. -/
theorem emergency_monotone_concrete :
    (([emergencyJet].getD 0 blankAircraft).emergency_state
      = true) ∧
    (((iterTick trivGeo halfRng 1 1 5 (1/1000)
        (some ProduceBehavior.succeeds) 1
        ([emergencyJet],
          0, 0)).1.getD 0 blankAircraft).emergency_state = true) ∧
    (((iterTick trivGeo halfRng 1 1 5 (1/1000)
        (some ProduceBehavior.succeeds) 1
        ([emergencyJet],
          0, 0)).1.getD 0 blankAircraft).squawk
      = ([emergencyJet].getD 0 blankAircraft).squawk) := by
  have hem : (([emergencyJet] : List Aircraft).getD 0
        blankAircraft).emergency_state = true := rfl
  exact ⟨hem,
    (emergency_monotone trivGeo halfRng 1 1 5 (1/1000)
      (some ProduceBehavior.succeeds) 1
      [emergencyJet]
      0 0 0 hem).1,
    (emergency_monotone trivGeo halfRng 1 1 5 (1/1000)
      (some ProduceBehavior.succeeds) 1
      [emergencyJet]
      0 0 0 hem).2⟩

/-- Witness for C2: the two coincident same-altitude aircraft form one
conflicting pair and both flags agree with pair membership. -/
theorem separationScan_spec_concrete :
    (separationScan trivGeo fleetPair).2 = specConflictCount trivGeo fleetPair ∧
    0 < fleetPair.length ∧
    (((separationScan trivGeo fleetPair).1.getD 0
        blankAircraft).conflict_state = true ↔
      InConflictPair trivGeo fleetPair 0) :=
  ⟨(separationScan_spec trivGeo fleetPair).1, by decide,
    (separationScan_spec trivGeo fleetPair).2.2 0 (by decide)⟩

/-! ## Claim C1 -/

/-- C1 (code bug).  The claim states that constructing
`Aircraft(icao, category)` always succeeds and, for a jet, yields the
initial envelope and a 3–5 waypoint plan.  In the source,
`__init__` calls `_initialize_flight_parameters()` — which ends by
calling `_generate_flight_plan()` — *before* the attribute
`self.waypoints` is assigned, so the first `self.waypoints.append(...)`
raises `AttributeError` for every icao, category and valid RNG: the
constructor never returns. -/
theorem aircraftInit_raises (geo : Geo) (r : ℕ → ℚ) (icao cat : String)
    (k : ℕ) (hr : UnitRng r) :
    aircraftInit geo r icao cat k
      = Except.error "AttributeError: waypoints" := by
  have key : ∀ k0, genFlightPlanNoAttr r k0
      = Except.error "AttributeError: waypoints" := by
    intro k0
    obtain ⟨h3, h5⟩ := randIntIn_mem hr (by norm_num : (3:ℤ) ≤ 5) k0
    have hne : (randIntIn r 3 5 k0).1.toNat ≠ 0 := by omega
    unfold genFlightPlanNoAttr
    simp [hne]
  simp [aircraftInit, key]

/-- Witness for C1: the failure at the concrete input
`Aircraft("ABC123", "jet")` with the constant half stream. -/
theorem aircraftInit_raises_concrete :
    UnitRng halfRng ∧
    aircraftInit trivGeo halfRng "ABC123" "jet" 0
      = Except.error "AttributeError: waypoints" := by
  have hv : UnitRng halfRng := fun n => by
    constructor <;> norm_num [halfRng]
  exact ⟨hv, aircraftInit_raises trivGeo halfRng "ABC123" "jet" 0 hv⟩

/-! ## Claim C6 -/

/-- C6 counterexample.  The claim states that an unhandled exception in
the tick loop makes the process exit with code 1.  With a successful
startup and a tick-loop failure, the `except Exception` handler inside
`run` swallows the exception, `run` returns normally, `main` falls
through, and the process exits 0, not 1 (the error is still logged and
the drain still runs). -/
theorem mainExit_loop_failure_is_zero :
    mainExit (Except.ok defaultConfig) (Except.ok ProduceBehavior.succeeds)
        (TickEnd.failure "boom") = 0 ∧
      mainExit (Except.ok defaultConfig)
        (Except.ok ProduceBehavior.succeeds) (TickEnd.failure "boom") ≠ 1 ∧
      (runLoop (TickEnd.failure "boom")).loggedError = true ∧
      (runLoop (TickEnd.failure "boom")).drained = true := by
  refine ⟨rfl, ?_, rfl, rfl⟩
  decide

/-- C6 amended: on an unhandled exception in the tick loop the simulator
logs it and drains (stop runs in the `finally` block), the exception does
not escape `run`, and the process exits with code 0; exit code 1 is
produced exactly when startup fails (the constructor raises). -/
theorem mainExit_semantics (parsed : Except String RawConfig)
    (bus : Except String ProduceBehavior) (msg : String) (t : TickEnd) :
    (runLoop (TickEnd.failure msg)).loggedError = true ∧
    (runLoop (TickEnd.failure msg)).drained = true ∧
    (runLoop (TickEnd.failure msg)).escaped = none ∧
    mainExit parsed bus t
      = (if (simStartup parsed bus).isOk then 0 else 1) := by
  refine ⟨rfl, rfl, rfl, ?_⟩
  unfold mainExit
  rcases h : simStartup parsed bus with e | c
  · simp [Except.isOk, Except.toBool]
  · rcases t <;> simp [runLoop, Except.isOk, Except.toBool]

/-! ## Claim C7 -/

/-- C7 counterexample.  The claim states that when the file parses but
individual keys are absent, each missing key falls back to its default
field-by-field and the simulator still starts.  With a parsed
configuration whose `simulation` mapping lacks only `num_aircraft`, the
unguarded read in `_generate_aircraft_fleet` raises `KeyError` out of
the constructor: there is no per-key fallback and startup fails. -/
theorem simStartup_missing_key_fails :
    simStartup (Except.ok cfgMissingKey) (Except.ok ProduceBehavior.succeeds)
      = Except.error "KeyError: num_aircraft" := rfl

/-- C7 amended: the whole default record is used exactly when the file
is missing or unparsable (startup then proceeds); when the file parses
but a startup-consumed key such as `simulation.num_aircraft` is absent,
the dictionary access raises `KeyError` and the simulator does not
start — no field-by-field fallback exists. -/
theorem loadConfig_fallback_semantics :
    (∀ e, loadConfig (Except.error e) = defaultConfig) ∧
    (∀ e bus, simStartup (Except.error e) bus
      = Except.ok (defaultConfig, setupKafka defaultConfig bus)) ∧
    (∀ c bus s, c.simulation = some s → s.num_aircraft = none →
      simStartup (Except.ok c) bus
        = Except.error "KeyError: num_aircraft") := by
  refine ⟨fun e => rfl, fun e bus => rfl, fun c bus s h1 h2 => ?_⟩
  unfold simStartup fleetGenAccess loadConfig
  have hnum : cfgNumAircraft c = Except.error "KeyError: num_aircraft" := by
    unfold cfgNumAircraft
    rw [h1]
    simp [h2]
  simp [hnum, Bind.bind, Except.bind]

/-- Witness for C7 (amended): instantiation at the concrete
configuration lacking `num_aircraft`, with an unreachable bus. -/
theorem loadConfig_fallback_concrete :
    loadConfig (Except.error "No such file") = defaultConfig ∧
    simStartup (Except.error "No such file") (Except.error "bus down")
      = Except.ok (defaultConfig,
          setupKafka defaultConfig (Except.error "bus down")) ∧
    simStartup (Except.ok cfgMissingKey) (Except.error "bus down")
      = Except.error "KeyError: num_aircraft" :=
  ⟨loadConfig_fallback_semantics.1 "No such file",
   loadConfig_fallback_semantics.2.1 "No such file" (Except.error "bus down"),
   loadConfig_fallback_semantics.2.2 cfgMissingKey (Except.error "bus down")
     _ rfl rfl⟩

/-! ## Claim C8 -/

/-- C8 (confirmed).  `_publish_message` is a no-op on the counter when
the producer is absent (construction failed at startup) and when the
enqueue raises (the exception is caught and only logged); the
`messages_sent` counter is incremented exactly when the enqueue
succeeds, and the function is total — no exception propagates to the
tick. -/
theorem publishMessage_counter_spec (producer : Option ProduceBehavior)
    (sent : ℕ) :
    ((publishMessage producer sent).1 = sent + 1 ↔
      producer = some ProduceBehavior.succeeds) ∧
    ((publishMessage producer sent).1 = sent ↔
      producer ≠ some ProduceBehavior.succeeds) ∧
    publishMessage none sent = (sent, none) ∧
    (∀ m, publishMessage (some (ProduceBehavior.raises m)) sent
      = (sent, some m)) := by
  rcases producer with _ | pb
  · refine ⟨?_, ?_, rfl, fun m => rfl⟩ <;> simp [publishMessage]
  · rcases pb with _ | m <;>
      refine ⟨?_, ?_, rfl, fun m => rfl⟩ <;>
      simp [publishMessage, produceAttempt]

/-! ## Claim C9 -/

/-- C9 counterexample.  The claim states that in every pass the advance
phase completes for every aircraft before any aircraft's emission test
is drawn.  In the source a single `for` loop interleaves them: with two
aircraft the trace runs the first aircraft's emission test before the
second aircraft's advance, so the claimed phase separation is false. -/
theorem tickTrace_interleaved :
    advancePhaseFirst (tickTrace 2) = false ∧
    tickTrace 2 = [TickEvent.advance 0, TickEvent.emitTest 0,
      TickEvent.advance 1, TickEvent.emitTest 1, TickEvent.scan,
      TickEvent.emergencies, TickEvent.pump, TickEvent.stats] := by
  decide

/-- C9 amended: in every pass each aircraft's advance immediately
precedes that same aircraft's emission test (position `2i` versus
`2i + 1`), the whole per-aircraft loop precedes the separation scan,
which is followed in order by emergency sampling, the publisher pump and
the statistics heartbeat. -/
theorem tickTrace_phase_order (n i : ℕ) (hi : i < n) :
    posOf (TickEvent.advance i) (tickTrace n) = 2 * i ∧
    posOf (TickEvent.emitTest i) (tickTrace n) = 2 * i + 1 ∧
    posOf TickEvent.scan (tickTrace n) = 2 * n ∧
    posOf TickEvent.emergencies (tickTrace n) = 2 * n + 1 ∧
    posOf TickEvent.pump (tickTrace n) = 2 * n + 2 ∧
    posOf TickEvent.stats (tickTrace n) = 2 * n + 3 := by
  have hadv : posOf (TickEvent.advance i) (tickTrace n) = 2 * i := by
    rw [tickTrace_eq,
      posOf_append_left (mem_perAircraftTrace.2 ⟨i, hi, Or.inl rfl⟩)]
    exact posOf_advance_perAircraft hi
  have hemit : posOf (TickEvent.emitTest i) (tickTrace n) = 2 * i + 1 := by
    rw [tickTrace_eq,
      posOf_append_left (mem_perAircraftTrace.2 ⟨i, hi, Or.inr rfl⟩)]
    exact posOf_emitTest_perAircraft hi
  refine ⟨hadv, hemit, ?_, ?_, ?_, ?_⟩ <;>
    rw [posOf_tail_event (by intro j; exact ⟨by simp, by simp⟩)] <;>
    simp [posOf]

/-! ## Flight-plan length lemmas -/

theorem genWaypoints_length (geo : Geo) (r : ℕ → ℚ) :
    ∀ (n : ℕ) (lat lon : ℚ) (i : ℕ) (acc : List Waypoint) (k : ℕ),
      (genWaypoints geo r n lat lon i acc k).1.length = acc.length + n := by
  intro n
  induction n with
  | zero => intro lat lon i acc k; rfl
  | succ m ih =>
    intro lat lon i acc k
    unfold genWaypoints
    rw [ih]
    simp
    omega

theorem genFlightPlan_length {r : ℕ → ℚ} (hr : UnitRng r) (geo : Geo)
    (lat lon : ℚ) (k : ℕ) :
    3 ≤ (genFlightPlan geo r lat lon [] k).1.length ∧
      (genFlightPlan geo r lat lon [] k).1.length ≤ 5 := by
  obtain ⟨h3, h5⟩ := randIntIn_mem hr (by norm_num : (3:ℤ) ≤ 5) k
  unfold genFlightPlan
  rw [genWaypoints_length]
  simp only [List.length_nil, Nat.zero_add]
  omega

/-! ## Waypoint-index helpers -/

theorem updatePosition_wp_idx (geo : Geo) (r : ℕ → ℚ) (dt : ℚ)
    (a : Aircraft) (k : ℕ) (hemp : a.waypoints.isEmpty = false) :
    (updatePosition geo r dt a k).1.waypoints
        = (trackWaypoint geo r a k).1.waypoints ∧
    (updatePosition geo r dt a k).1.current_waypoint_index
        = (trackWaypoint geo r a k).1.current_waypoint_index := by
  unfold updatePosition
  rw [hemp]
  simp only [Bool.false_eq_true, if_false]
  constructor <;> (dsimp only; split_ifs <;> simp)

theorem trackWaypoint_index {r : ℕ → ℚ} (hr : UnitRng r) (geo : Geo)
    (a : Aircraft) (k : ℕ)
    (hlt : a.current_waypoint_index < a.waypoints.length) :
    (trackWaypoint geo r a k).1.current_waypoint_index
        < (trackWaypoint geo r a k).1.waypoints.length ∧
    ((trackWaypoint geo r a k).1.waypoints = a.waypoints ∨
      ((trackWaypoint geo r a k).1.current_waypoint_index = 0 ∧
        3 ≤ (trackWaypoint geo r a k).1.waypoints.length ∧
        (trackWaypoint geo r a k).1.waypoints.length ≤ 5)) := by
  unfold trackWaypoint
  rw [if_pos hlt]
  dsimp only
  split_ifs with hd hge
  · obtain ⟨h3, h5⟩ := genFlightPlan_length hr geo a.latitude a.longitude k
    refine ⟨by simpa using by omega, Or.inr ⟨rfl, by simpa using h3,
      by simpa using h5⟩⟩
  · exact ⟨by simpa using by omega, Or.inl rfl⟩
  · exact ⟨hlt, Or.inl rfl⟩

/-! ## Claim C3 -/

/-- C3 (confirmed as preservation of the P5 invariant).  For every
aircraft whose plan is active — index in range, which entails a
non-empty plan — every valid RNG and every `Δt > 0`, after
`update_position(Δt)` the index is again in range
`0 ≤ current_waypoint_index < len(waypoints)`; moreover either the plan
is unchanged or it was regenerated within the same call with 3–5 fresh
waypoints and the index reset to 0 — never left out of range. -/
theorem updatePosition_waypoint_invariant (geo : Geo) {r : ℕ → ℚ}
    (hr : UnitRng r) (dt : ℚ) (a : Aircraft) (k : ℕ) (hdt : 0 < dt)
    (hlt : a.current_waypoint_index < a.waypoints.length) :
    0 ≤ (updatePosition geo r dt a k).1.current_waypoint_index ∧
    (updatePosition geo r dt a k).1.current_waypoint_index
        < (updatePosition geo r dt a k).1.waypoints.length ∧
    ((updatePosition geo r dt a k).1.waypoints = a.waypoints ∨
      ((updatePosition geo r dt a k).1.current_waypoint_index = 0 ∧
        3 ≤ (updatePosition geo r dt a k).1.waypoints.length ∧
        (updatePosition geo r dt a k).1.waypoints.length ≤ 5)) := by
  have hne : a.waypoints ≠ [] := by
    intro hc
    rw [hc] at hlt
    simp at hlt
  have hemp : a.waypoints.isEmpty = false := by
    simpa [List.isEmpty_iff] using hne
  obtain ⟨hw, hi⟩ := updatePosition_wp_idx geo r dt a k hemp
  obtain ⟨htl, htc⟩ := trackWaypoint_index hr geo a k hlt
  rw [hw, hi]
  exact ⟨Nat.zero_le _, htl, htc⟩

/-- Witness for C3: one update of the concrete jet, whose single
waypoint is 0 km away under the degenerate geodesy, forcing the
regeneration path. -/
theorem updatePosition_waypoint_invariant_concrete :
    UnitRng halfRng ∧ (0:ℚ) < 1 ∧
    sampleJet.current_waypoint_index < sampleJet.waypoints.length ∧
    (updatePosition trivGeo halfRng 1 sampleJet 0).1.current_waypoint_index
      < (updatePosition trivGeo halfRng 1 sampleJet 0).1.waypoints.length := by
  have hv : UnitRng halfRng := fun n => by
    constructor <;> norm_num [halfRng]
  have hlt : sampleJet.current_waypoint_index
      < sampleJet.waypoints.length := by
    simp [sampleJet]
  exact ⟨hv, by norm_num, hlt,
    (updatePosition_waypoint_invariant trivGeo hv 1 sampleJet 0
      (by norm_num) hlt).2.1⟩

/-! ## Claim C4 -/

/-- C4 (confirmed).  For every aircraft whose category speed envelope is
set as by `_initialize_flight_parameters`, every `Δt > 0` and any number
`n ≥ 1` of successive `update_position(Δt)` calls, the state after each
call satisfies `0 ≤ heading < 360`, `1000 ≤ altitude ≤ 60000` and
`min_speed ≤ ground_speed ≤ max_speed`: the final noise step ends with a
modulo for the heading and clamps for altitude and speed, and a call on
an empty plan is a no-op that keeps previously established bounds (the
disjunctive hypothesis covers both ways an aircraft can be in a bounded
state before the first call). -/
theorem updatePosition_kin_bounds (geo : Geo) (r : ℕ → ℚ) (dt : ℚ)
    (a : Aircraft) (k : ℕ) (hdt : 0 < dt) (henv : CategoryEnvelope a)
    (hstart : a.waypoints ≠ [] ∨ KinBounds a) :
    ∀ n, 1 ≤ n → KinBounds ((iterUpdate geo r dt n (a, k)).1) := by
  intro n hn
  obtain ⟨m, rfl⟩ : ∃ m, n = m + 1 := ⟨n - 1, by omega⟩
  have hms : a.min_speed ≤ a.max_speed := categoryEnvelope_min_le_max henv
  show KinBounds ((iterUpdate geo r dt (m + 1) (a, k)).1)
  unfold iterUpdate
  apply iterUpdate_keeps_bounds
  · rw [updatePosition_min_speed, updatePosition_max_speed]
    exact hms
  · exact updatePosition_step_bounds geo r dt a k hms hstart

/-- Witness for C4: one update of the concrete jet. -/
theorem updatePosition_kin_bounds_concrete :
    (0 : ℚ) < 1 ∧ CategoryEnvelope sampleJet ∧
    (sampleJet.waypoints ≠ [] ∨ KinBounds sampleJet) ∧ 1 ≤ 1 ∧
    KinBounds ((iterUpdate trivGeo halfRng 1 1 (sampleJet, 0)).1) := by
  have h1 : (0 : ℚ) < 1 := by norm_num
  have h2 : CategoryEnvelope sampleJet := by
    left
    refine ⟨rfl, rfl, rfl⟩
  have h3 : sampleJet.waypoints ≠ [] ∨ KinBounds sampleJet := by
    left
    simp [sampleJet]
  exact ⟨h1, h2, h3, le_refl 1,
    updatePosition_kin_bounds trivGeo halfRng 1 sampleJet 0 h1 h2 h3 1
      (le_refl 1)⟩

/-! ## Claim C5 -/

theorem triggerEmergency_squawk (kind : String) (b : Aircraft) :
    ((triggerEmergency kind b).squawk = "7500" ∨
     (triggerEmergency kind b).squawk = "7600" ∨
     (triggerEmergency kind b).squawk = "7700") ∧
    (triggerEmergency kind b).emergency_state = true := by
  refine ⟨?_, rfl⟩
  unfold triggerEmergency
  rcases eq_or_ne kind "hijack" with h1 | h1
  · subst h1; left; rfl
  rcases eq_or_ne kind "communication" with h2 | h2
  · subst h2; right; left; rfl
  rcases eq_or_ne kind "general" with h3 | h3
  · subst h3; right; right; rfl
  have g1 : ¬ ("hijack" = kind) := fun hc => h1 hc.symm
  have g2 : ¬ ("communication" = kind) := fun hc => h2 hc.symm
  have g3 : ¬ ("general" = kind) := fun hc => h3 hc.symm
  right; right
  simp [List.find?, g1, g2, g3]

theorem applyOp_squawkInv (geo : Geo) (r : ℕ → ℚ) (op : AirOp)
    (p : Aircraft × ℕ) (h : SquawkInv p.1) :
    SquawkInv (applyOp geo r op p).1 := by
  rcases op with dt | kind | _ | bcf
  · unfold SquawkInv at h ⊢
    show (updatePosition geo r dt p.1 p.2).1.squawk = "1200" ↔
      (updatePosition geo r dt p.1 p.2).1.emergency_state = false
    rw [updatePosition_squawk, updatePosition_emergency]
    exact h
  · obtain ⟨hset, hem⟩ := triggerEmergency_squawk kind p.1
    unfold SquawkInv
    show (triggerEmergency kind p.1).squawk = "1200" ↔
      (triggerEmergency kind p.1).emergency_state = false
    rw [hem]
    constructor
    · intro hc
      rcases hset with hs | hs | hs <;> rw [hs] at hc <;>
        exact absurd hc (by decide)
    · intro hc
      exact absurd hc (by decide)
  · unfold SquawkInv
    show (clearEmergency p.1).squawk = "1200" ↔
      (clearEmergency p.1).emergency_state = false
    constructor <;> intro <;> rfl
  · exact h

theorem applyOps_squawkInv (geo : Geo) (r : ℕ → ℚ) (ops : List AirOp) :
    ∀ p : Aircraft × ℕ, SquawkInv p.1 →
      SquawkInv (applyOps geo r ops p).1 := by
  induction ops with
  | nil => intro p h; exact h
  | cons op rest ih =>
    intro p h
    exact ih (applyOp geo r op p) (applyOp_squawkInv geo r op p h)

/-- C5 (confirmed).  Starting from the constructor's flag assignments
(`squawk = "1200"`, `emergency_state = False`) and applying any sequence
of `update_position`, `trigger_emergency` (any kind string),
`clear_emergency` and `set_conflict_state` calls, every reachable state
satisfies P6: `squawk == "1200"` iff `emergency_state == false`. -/
theorem squawkInv_reachable (geo : Geo) (r : ℕ → ℚ) (ops : List AirOp)
    (a : Aircraft) (k : ℕ) (hsq : a.squawk = "1200")
    (hem : a.emergency_state = false) :
    SquawkInv (applyOps geo r ops (a, k)).1 := by
  apply applyOps_squawkInv
  unfold SquawkInv
  rw [hsq, hem]
  simp

/-- Witness for C5: the invariant after a concrete operation sequence
exercising every mutator on the concrete jet. -/
theorem squawkInv_reachable_concrete :
    sampleJet.squawk = "1200" ∧ sampleJet.emergency_state = false ∧
    SquawkInv (applyOps trivGeo halfRng sampleOps (sampleJet, 0)).1 :=
  ⟨rfl, rfl,
    squawkInv_reachable trivGeo halfRng sampleOps sampleJet 0 rfl rfl⟩

/-- Witness for C9 (amended): the phase positions in a two-aircraft
pass. -/
theorem tickTrace_phase_order_concrete :
    0 < 2 ∧
    posOf (TickEvent.advance 0) (tickTrace 2) = 0 ∧
    posOf (TickEvent.emitTest 0) (tickTrace 2) = 1 ∧
    posOf TickEvent.scan (tickTrace 2) = 4 ∧
    posOf TickEvent.emergencies (tickTrace 2) = 5 ∧
    posOf TickEvent.pump (tickTrace 2) = 6 ∧
    posOf TickEvent.stats (tickTrace 2) = 7 :=
  ⟨by decide, (tickTrace_phase_order 2 0 (by decide)).1,
    (tickTrace_phase_order 2 0 (by decide)).2.1,
    (tickTrace_phase_order 2 0 (by decide)).2.2.1,
    (tickTrace_phase_order 2 0 (by decide)).2.2.2.1,
    (tickTrace_phase_order 2 0 (by decide)).2.2.2.2.1,
    (tickTrace_phase_order 2 0 (by decide)).2.2.2.2.2⟩

end Adsb
